import Mathlib

/-!
Verification of the meeting-assistant capture/mixing/lifecycle core.

The development shallowly embeds the application orchestration
(handleStartMeeting, handleStopMeeting, handleGenerateResponse and the
transcript callback installed on mount) together with the session-channel
wrapper (GeminiLiveService: connect, disconnect, requestSuggestion,
handleMessage and its audio-stream helpers).  Platform effects —
getUserMedia, getDisplayMedia, AudioContext creation/resume, the tracks of
the mixer destination stream, and whether the SDK connect call throws
synchronously — are supplied by an explicit environment record.  Media
tracks are identified by numeric ids; every call to track.stop() is
recorded in an append-only stop history, so "this track is stopped" is
membership of its id in that history.
-/

/-- Kind of a platform media track (audio or video). -/
inductive TrackKind where
  | audio
  | video
deriving DecidableEq

/-- A platform media track, identified by id, with its kind. -/
structure MediaStreamTrack where
  id : Nat
  kind : TrackKind
deriving DecidableEq

/-- A platform media stream: an ordered collection of tracks. -/
structure MediaStream where
  tracks : List MediaStreamTrack
deriving DecidableEq

/-- stream.getTracks() -/
def MediaStream.getTracks (s : MediaStream) : List MediaStreamTrack :=
  s.tracks

/-- stream.getAudioTracks() -/
def MediaStream.getAudioTracks (s : MediaStream) : List MediaStreamTrack :=
  s.tracks.filter (fun t => decide (t.kind = TrackKind.audio))

/-- stream.getVideoTracks() -/
def MediaStream.getVideoTracks (s : MediaStream) : List MediaStreamTrack :=
  s.tracks.filter (fun t => decide (t.kind = TrackKind.video))

/-- ConnectionState enum from types.ts. -/
inductive ConnectionState where
  | DISCONNECTED
  | CONNECTING
  | CONNECTED
  | ERROR
deriving DecidableEq

/-- TranscriptionItem record from types.ts. -/
structure TranscriptionItem where
  id : String
  timestamp : Nat
  text : String
  isUser : Bool
  isComplete : Bool
deriving DecidableEq

/-- The text payload of a server transcription field (text may be absent). -/
structure TranscriptionPayload where
  text : Option String
deriving DecidableEq

/-- serverContent of a LiveServerMessage: optional input/output transcription
and an optional turn-complete flag. -/
structure ServerContent where
  inputTranscription : Option TranscriptionPayload
  outputTranscription : Option TranscriptionPayload
  turnComplete : Option Bool
deriving DecidableEq

/-- An inbound message from the AI service. -/
structure LiveServerMessage where
  serverContent : Option ServerContent
deriving DecidableEq

/-- A thrown platform error: its name and message properties. -/
structure JsError where
  name : String
  message : String
deriving DecidableEq

/-- Mutable fields of the GeminiLiveService instance: whether sessionPromise
is non-null, whether the input audio pipeline (inputAudioContext,
mediaStreamSource, scriptProcessor) is up, and the text messages sent into
the session. -/
structure ServiceState where
  sessionOpen : Bool
  audioStreamActive : Bool
  sentTexts : List String
deriving DecidableEq

/-- Combined application + service + world state.
stopHistory records the id of every track on which stop() has been called,
in call order.  openMixCtxCount counts AudioContexts created for mixing by
handleStartMeeting and not closed.  onendedHandler records whether an
onended handler was installed on the tab-share video track and, if so, the
value of the React stream state binding its closure captured (the value of
the render in which handleStartMeeting ran, not the current one).
notifications
records every ConnectionState passed to the service's onStateChange
callback, in call order. -/
structure AppState where
  connectionState : ConnectionState
  stream : Option MediaStream
  transcripts : List TranscriptionItem
  currentSuggestion : Option TranscriptionItem
  isGenerating : Bool
  errorMsg : Option String
  activeTracks : List MediaStreamTrack
  stopHistory : List Nat
  openMixCtxCount : Nat
  onendedHandler : Option (Option MediaStream)
  service : ServiceState
  notifications : List ConnectionState
deriving DecidableEq

/-- The initial state after mount: all useState initial values, empty
activeTracksRef, a constructed service with no session. -/
def initialState : AppState :=
  { connectionState := ConnectionState.DISCONNECTED
    stream := none
    transcripts := []
    currentSuggestion := none
    isGenerating := false
    errorMsg := none
    activeTracks := []
    stopHistory := []
    openMixCtxCount := 0
    onendedHandler := none
    service := { sessionOpen := false, audioStreamActive := false, sentTexts := [] }
    notifications := [] }

/-- The onStateChange callback handed to the service: it sets the
connectionState React state; we additionally record the notification. -/
def onStateChange (s : AppState) (st : ConnectionState) : AppState :=
  { s with connectionState := st, notifications := s.notifications ++ [st] }

/-- The transcription callback installed on mount: append the item to the
transcript log; if the item is not from the user (a model response), clear
the is-generating indicator and set it as the current suggestion. -/
def onTranscriptionUpdate (s : AppState) (item : TranscriptionItem) : AppState :=
  let s1 := { s with transcripts := s.transcripts ++ [item] }
  if item.isUser then s1
  else { s1 with isGenerating := false, currentSuggestion := some item }

/-- GeminiLiveService.stopAudioStream: disconnect the media-stream source
and script processor and close the input audio context. -/
def GeminiLiveService.stopAudioStream (s : AppState) : AppState :=
  { s with service := { s.service with audioStreamActive := false } }

/-- GeminiLiveService.startAudioStream: create the 16 kHz input context,
source node and script processor and wire them up. -/
def GeminiLiveService.startAudioStream (s : AppState) : AppState :=
  { s with service := { s.service with audioStreamActive := true } }

/-- GeminiLiveService.connect: notify CONNECTING, then call the SDK connect.
If the SDK call throws synchronously the catch block notifies ERROR and the
sessionPromise stays null; otherwise the sessionPromise is set.  In either
case no exception escapes to the caller. -/
def GeminiLiveService.connect (connectThrows : Bool) (s : AppState) : AppState :=
  let s1 := onStateChange s ConnectionState.CONNECTING
  if connectThrows then onStateChange s1 ConnectionState.ERROR
  else { s1 with service := { s1.service with sessionOpen := true } }

/-- The service's onopen callback: notify CONNECTED and start streaming
audio into the session. -/
def serverOpen (s : AppState) : AppState :=
  GeminiLiveService.startAudioStream (onStateChange s ConnectionState.CONNECTED)

/-- The service's onclose callback: notify DISCONNECTED and stop the audio
stream. -/
def serverClose (s : AppState) : AppState :=
  GeminiLiveService.stopAudioStream (onStateChange s ConnectionState.DISCONNECTED)

/-- The service's onerror callback: notify ERROR and stop the audio
stream. -/
def serverError (s : AppState) : AppState :=
  GeminiLiveService.stopAudioStream (onStateChange s ConnectionState.ERROR)

/-- GeminiLiveService.disconnect: if a session promise exists, stop the
audio stream and null the promise; then always notify DISCONNECTED. -/
def GeminiLiveService.disconnect (s : AppState) : AppState :=
  let s1 :=
    if s.service.sessionOpen then
      let s2 := GeminiLiveService.stopAudioStream s
      { s2 with service := { s2.service with sessionOpen := false } }
    else s
  onStateChange s1 ConnectionState.DISCONNECTED

/-- GeminiLiveService.requestSuggestion: if a session promise exists, send
the fixed trigger text into the session; otherwise do nothing. -/
def GeminiLiveService.requestSuggestion (s : AppState) : AppState :=
  if s.service.sessionOpen then
    { s with service := { s.service with
        sentTexts := s.service.sentTexts ++
          ["Based on the conversation, suggest a response now."] } }
  else s

/-- GeminiLiveService.handleMessage: for each of the input-transcription and
output-transcription fields, if the text is present and non-empty, build a
TranscriptionItem (id from the clock and a random suffix, isUser true for
input / false for output, isComplete from the turn-complete flag) and hand
it to the transcription callback; input is handled before output. -/
def GeminiLiveService.handleMessage (now : Nat) (r1 r2 : String)
    (s : AppState) (message : LiveServerMessage) : AppState :=
  let s1 :=
    match message.serverContent with
    | none => s
    | some sc =>
      match sc.inputTranscription with
      | none => s
      | some tr =>
        match tr.text with
        | none => s
        | some t =>
          if t = "" then s
          else onTranscriptionUpdate s
            { id := toString now ++ r1, timestamp := now, text := t,
              isUser := true, isComplete := (sc.turnComplete.getD false) }
  match message.serverContent with
  | none => s1
  | some sc =>
    match sc.outputTranscription with
    | none => s1
    | some tr =>
      match tr.text with
      | none => s1
      | some t =>
        if t = "" then s1
        else onTranscriptionUpdate s1
          { id := toString now ++ r2, timestamp := now, text := t,
            isUser := false, isComplete := (sc.turnComplete.getD false) }

/-- Call stop() on each of the given tracks (recorded in the history). -/
def stopTracks (s : AppState) (ts : List MediaStreamTrack) : AppState :=
  { s with stopHistory := s.stopHistory ++ ts.map (fun t => t.id) }

/-- cleanupTracks: stop every track in activeTracksRef and clear the ref. -/
def cleanupTracks (s : AppState) : AppState :=
  { stopTracks s s.activeTracks with activeTracks := [] }

/-- Whether the first character list begins with the second. -/
def listStartsWith : List Char → List Char → Bool
  | _, [] => true
  | [], _ :: _ => false
  | c :: cs, p :: ps => c == p && listStartsWith cs ps

/-- Whether the second character list occurs inside the first. -/
def listContainsSub : List Char → List Char → Bool
  | [], p => p.isEmpty
  | c :: cs, p => listStartsWith (c :: cs) p || listContainsSub cs p

/-- Substring test used to model String.prototype.includes. -/
def strContains (s pat : String) : Bool :=
  listContainsSub s.data pat.data

/-- The user-facing message computed in handleStartMeeting's catch block. -/
def errorMessageFor (e : JsError) : String :=
  if e.name = "NotAllowedError" then
    "Permission denied. Please allow microphone access and select a tab to share."
  else if e.message ≠ "" ∧ strContains e.message "display-capture" then
    "Screen capture permission policy violation. Please refresh or try a different browser context."
  else if e.message = "" then
    "Failed to access audio. Ensure you select a tab with audio sharing enabled."
  else e.message

/-- Outcomes of the platform calls made during one start attempt:
getUserMedia, getDisplayMedia, whether the fresh AudioContext reports
suspended, the outcome of resume(), the tracks of the mixer destination
stream, and whether the SDK connect call throws synchronously. -/
structure StartEnv where
  micResult : Except JsError MediaStream
  displayResult : Except JsError MediaStream
  ctxSuspended : Bool
  resumeResult : Except JsError Unit
  mixedTracks : List MediaStreamTrack
  connectThrows : Bool

/-- The try-block of handleStartMeeting.  Returns the state as mutated up
to the point of return, paired with the escaped exception if one was
thrown: acquire the microphone (failing if it has no audio track), push its
tracks; acquire the display stream; if it has no audio track stop its
tracks, run cleanupTracks and throw; otherwise push its tracks, create the
mixing AudioContext (resuming it when suspended, and failing the attempt if
resume fails), build the graph, store the destination stream, call the
service connect (which swallows its own failure), and register the onended
handler on the display video track when one exists; the handler closure
captures the stream state binding of the render that ran
handleStartMeeting, i.e. the value at entry, not the freshly stored mixed
stream. -/
def startBody (env : StartEnv) (s0 : AppState) : AppState × Option JsError :=
  match env.micResult with
  | Except.error e => (s0, some e)
  | Except.ok micStream =>
    if micStream.getAudioTracks.length = 0 then
      (s0, some { name := "Error",
                  message := "No microphone audio track found. Please check your microphone settings." })
    else
      let s1 := { s0 with activeTracks := s0.activeTracks ++ micStream.getTracks }
      match env.displayResult with
      | Except.error e => (s1, some e)
      | Except.ok displayStream =>
        if displayStream.getAudioTracks.length = 0 then
          let s2 := stopTracks s1 displayStream.getTracks
          let s3 := cleanupTracks s2
          (s3, some { name := "Error",
                      message := "Tab audio not detected. Please ensure you check the \x27Share tab audio\x27 box in the sharing dialog." })
        else
          let s2 := { s1 with activeTracks := s1.activeTracks ++ displayStream.getTracks }
          let s3 := { s2 with openMixCtxCount := s2.openMixCtxCount + 1 }
          match (if env.ctxSuspended then env.resumeResult else Except.ok ()) with
          | Except.error e => (s3, some e)
          | Except.ok _ =>
            let s4 := { s3 with stream := some { tracks := env.mixedTracks } }
            let s5 := GeminiLiveService.connect env.connectThrows s4
            let s6 := { s5 with
              onendedHandler :=
                if displayStream.getVideoTracks.isEmpty then s5.onendedHandler
                else some s0.stream }
            (s6, none)

/-- handleStartMeeting: clear the error message, defensively stop any
previous tracks, run the acquisition/mix/connect sequence; on a thrown
failure stop all tracks still in the active set, translate the error to a
user-facing message and enter the ERROR state. -/
def handleStartMeeting (env : StartEnv) (s : AppState) : AppState :=
  let sA := { s with errorMsg := none }
  let sB := cleanupTracks sA
  match startBody env sB with
  | (sC, none) => sC
  | (sC, some e) =>
    let sD := cleanupTracks sC
    { sD with errorMsg := some (errorMessageFor e),
              connectionState := ConnectionState.ERROR }

/-- The body of handleStopMeeting as a function of the stream value its
invoking closure captured: disconnect the service, stop every track of the
captured mixed stream (if any), stop the original source tracks held in
the ref (refs and state setters always act on current state, while a plain
state read in a closure sees the value of the render that created it),
clear the stream state and set DISCONNECTED. -/
def handleStopMeetingWith (streamBinding : Option MediaStream) (s : AppState) : AppState :=
  let s1 := GeminiLiveService.disconnect s
  let s2 :=
    match streamBinding with
    | some ms => stopTracks s1 ms.getTracks
    | none => s1
  let s3 := cleanupTracks s2
  { s3 with stream := none, connectionState := ConnectionState.DISCONNECTED }

/-- handleStopMeeting invoked from the End-Meeting button: the button is
re-rendered on every state change, so its onClick closure's stream binding
is the current value. -/
def handleStopMeeting (s : AppState) : AppState :=
  handleStopMeetingWith s.stream s

/-- The onended handler installed on the tab-share video track: when one
was registered, remote revocation runs the stop closure of the render that
registered it, whose stream binding is the captured (pre-start) value. -/
def videoTrackEnded (s : AppState) : AppState :=
  match s.onendedHandler with
  | none => s
  | some cap => handleStopMeetingWith cap s

/-- handleGenerateResponse: do nothing unless CONNECTED; otherwise set the
is-generating indicator, clear the previous suggestion and send the
request into the session. -/
def handleGenerateResponse (s : AppState) : AppState :=
  if s.connectionState = ConnectionState.CONNECTED then
    GeminiLiveService.requestSuggestion
      { s with isGenerating := true, currentSuggestion := none }
  else s

/-- The onDismiss handler of the suggestion card: clear the current
suggestion slot. -/
def dismissSuggestion (s : AppState) : AppState :=
  { s with currentSuggestion := none }

/-- A concrete microphone stream with one audio track, for witnesses. -/
def micA : MediaStream :=
  { tracks := [{ id := 0, kind := TrackKind.audio }] }

/-- A concrete tab-share stream with one audio and one video track. -/
def dispA : MediaStream :=
  { tracks := [{ id := 1, kind := TrackKind.audio },
               { id := 2, kind := TrackKind.video }] }

/-- A concrete environment in which every step of a start attempt
succeeds. -/
def envA : StartEnv :=
  { micResult := Except.ok micA
    displayResult := Except.ok dispA
    ctxSuspended := false
    resumeResult := Except.ok ()
    mixedTracks := [{ id := 10, kind := TrackKind.audio }]
    connectThrows := false }

/-- A concrete environment in which the mixing context starts suspended and
resume() fails. -/
def envResumeFail : StartEnv :=
  { micResult := Except.ok micA
    displayResult := Except.ok dispA
    ctxSuspended := true
    resumeResult := Except.error { name := "InvalidStateError", message := "resume failed" }
    mixedTracks := []
    connectThrows := false }

/-- A concrete environment in which the tab-share stream carries no audio
track. -/
def envNoTab : StartEnv :=
  { micResult := Except.ok micA
    displayResult := Except.ok { tracks := [{ id := 2, kind := TrackKind.video }] }
    ctxSuspended := false
    resumeResult := Except.ok ()
    mixedTracks := []
    connectThrows := false }

/-- A concrete environment in which the SDK connect call throws
synchronously. -/
def envConnectThrow : StartEnv :=
  { micResult := Except.ok micA
    displayResult := Except.ok dispA
    ctxSuspended := false
    resumeResult := Except.ok ()
    mixedTracks := [{ id := 10, kind := TrackKind.audio }]
    connectThrows := true }

/-- A concrete mid-session state: connecting, with source tracks acquired,
the mixed stream stored and the session promise set. -/
def stateMid : AppState :=
  { initialState with
    connectionState := ConnectionState.CONNECTING
    stream := some { tracks := [{ id := 10, kind := TrackKind.audio }] }
    activeTracks := micA.tracks ++ dispA.tracks
    service := { sessionOpen := true, audioStreamActive := false, sentTexts := [] } }

/-- The start-attempt failures that raise an exception reaching
handleStartMeeting's catch block: microphone acquisition fails, the
microphone stream has no audio track, tab-share acquisition fails, the
tab-share stream has no audio track, or the mixing-context resume fails.
(A synchronous session-connect failure is swallowed inside the service and
never reaches the catch block.) -/
def startThrowFailure (env : StartEnv) : Prop :=
  (∃ e, env.micResult = Except.error e) ∨
  (∃ mic, env.micResult = Except.ok mic ∧ mic.getAudioTracks.length = 0) ∨
  (∃ mic e, env.micResult = Except.ok mic ∧ mic.getAudioTracks.length ≠ 0 ∧
    env.displayResult = Except.error e) ∨
  (∃ mic disp, env.micResult = Except.ok mic ∧ mic.getAudioTracks.length ≠ 0 ∧
    env.displayResult = Except.ok disp ∧ disp.getAudioTracks.length = 0) ∨
  (∃ mic disp e, env.micResult = Except.ok mic ∧ mic.getAudioTracks.length ≠ 0 ∧
    env.displayResult = Except.ok disp ∧ disp.getAudioTracks.length ≠ 0 ∧
    (if env.ctxSuspended then env.resumeResult else Except.ok ()) = Except.error e)

/-- The tracks handed out by the capture calls during a start attempt that
gets past the microphone-validation step. -/
def tracksAcquired (env : StartEnv) : List MediaStreamTrack :=
  match env.micResult with
  | Except.error _ => []
  | Except.ok mic =>
    if mic.getAudioTracks.length = 0 then []
    else
      mic.getTracks ++
        (match env.displayResult with
         | Except.error _ => []
         | Except.ok disp => disp.getTracks)

/-- One inbound server message together with the clock value and the two
random id suffixes drawn while handling it. -/
structure InboundEvent where
  msg : LiveServerMessage
  now : Nat
  rand1 : String
  rand2 : String

/-- The input-side TranscriptionItem an event produces: present exactly
when the message carries an input transcription with non-empty text
(mirrors the guards of handleMessage). -/
def inputItemOf (e : InboundEvent) : Option TranscriptionItem :=
  match e.msg.serverContent with
  | none => none
  | some sc =>
    match sc.inputTranscription with
    | none => none
    | some tr =>
      match tr.text with
      | none => none
      | some t =>
        if t = "" then none
        else some { id := toString e.now ++ e.rand1, timestamp := e.now, text := t,
                    isUser := true, isComplete := (sc.turnComplete.getD false) }

/-- The output-side TranscriptionItem an event produces: present exactly
when the message carries an output transcription with non-empty text. -/
def outputItemOf (e : InboundEvent) : Option TranscriptionItem :=
  match e.msg.serverContent with
  | none => none
  | some sc =>
    match sc.outputTranscription with
    | none => none
    | some tr =>
      match tr.text with
      | none => none
      | some t =>
        if t = "" then none
        else some { id := toString e.now ++ e.rand2, timestamp := e.now, text := t,
                    isUser := false, isComplete := (sc.turnComplete.getD false) }

/-- Every TranscriptionItem an event produces, input before output. -/
def eventItems (e : InboundEvent) : List TranscriptionItem :=
  (inputItemOf e).toList ++ (outputItemOf e).toList

/-- All items produced by a sequence of events, in dispatch order. -/
def producedItems : List InboundEvent → List TranscriptionItem
  | [] => []
  | e :: rest => eventItems e ++ producedItems rest

/-- All output-side items produced by a sequence of events, in order. -/
def outputsOf : List InboundEvent → List TranscriptionItem
  | [] => []
  | e :: rest => (outputItemOf e).toList ++ outputsOf rest

/-- Dispatch a sequence of inbound events through handleMessage. -/
def processEvents (s : AppState) (evts : List InboundEvent) : AppState :=
  evts.foldl
    (fun st e => GeminiLiveService.handleMessage e.now e.rand1 e.rand2 st e.msg) s

/-- Whether a message's input-transcription text is empty or absent. -/
def inputBlank (m : LiveServerMessage) : Bool :=
  match m.serverContent with
  | none => true
  | some sc =>
    match sc.inputTranscription with
    | none => true
    | some tr =>
      match tr.text with
      | none => true
      | some t => t == ""

/-- Whether a message's output-transcription text is empty or absent. -/
def outputBlank (m : LiveServerMessage) : Bool :=
  match m.serverContent with
  | none => true
  | some sc =>
    match sc.outputTranscription with
    | none => true
    | some tr =>
      match tr.text with
      | none => true
      | some t => t == ""

/-- A message carrying an input transcription with text t. -/
def msgIn (t : String) : LiveServerMessage :=
  { serverContent := some { inputTranscription := some { text := some t }
                            outputTranscription := none
                            turnComplete := some false } }

/-- A message carrying an output transcription with text t. -/
def msgOut (t : String) : LiveServerMessage :=
  { serverContent := some { inputTranscription := none
                            outputTranscription := some { text := some t }
                            turnComplete := some true } }

/-- An inbound input-transcription event at clock n. -/
def evIn (n : Nat) (t : String) : InboundEvent :=
  { msg := msgIn t, now := n, rand1 := "a", rand2 := "b" }

/-- An inbound output-transcription event at clock n. -/
def evOut (n : Nat) (t : String) : InboundEvent :=
  { msg := msgOut t, now := n, rand1 := "a", rand2 := "b" }

/-- The concrete E1..E4 event sequence used by witnesses. -/
def sampleEvents : List InboundEvent :=
  [evIn 1 "hello", evOut 2 "hi there", evIn 3 "how are you", evOut 4 "I\x27m good"]

/-- A concrete event whose message carries an empty input-transcription
text and no output transcription. -/
def evBlank : InboundEvent :=
  { msg := { serverContent := some { inputTranscription := some { text := some "" }
                                     outputTranscription := none
                                     turnComplete := none } }
    now := 7
    rand1 := "a"
    rand2 := "b" }

theorem handleStopMeetingWith_eq (cap : Option MediaStream) (s : AppState) :
    handleStopMeetingWith cap s =
      { connectionState := ConnectionState.DISCONNECTED
        stream := none
        transcripts := s.transcripts
        currentSuggestion := s.currentSuggestion
        isGenerating := s.isGenerating
        errorMsg := s.errorMsg
        activeTracks := []
        stopHistory :=
          (s.stopHistory ++
            (match cap with
             | some ms => ms.tracks.map (fun t => t.id)
             | none => [])) ++ s.activeTracks.map (fun t => t.id)
        openMixCtxCount := s.openMixCtxCount
        onendedHandler := s.onendedHandler
        service := { sessionOpen := false
                     audioStreamActive :=
                       if s.service.sessionOpen then false else s.service.audioStreamActive
                     sentTexts := s.service.sentTexts }
        notifications := s.notifications ++ [ConnectionState.DISCONNECTED] } := by
  obtain ⟨cs, st, tr, cur, ig, em, acts, sh, mc, oe, ⟨so, aa, sx⟩, nf⟩ := s
  cases cap <;> cases so <;>
    simp [handleStopMeetingWith, GeminiLiveService.disconnect,
      GeminiLiveService.stopAudioStream, cleanupTracks, stopTracks,
      onStateChange, MediaStream.getTracks]

theorem handleStopMeeting_eq (s : AppState) :
    handleStopMeeting s =
      { connectionState := ConnectionState.DISCONNECTED
        stream := none
        transcripts := s.transcripts
        currentSuggestion := s.currentSuggestion
        isGenerating := s.isGenerating
        errorMsg := s.errorMsg
        activeTracks := []
        stopHistory :=
          (s.stopHistory ++
            (match s.stream with
             | some ms => ms.tracks.map (fun t => t.id)
             | none => [])) ++ s.activeTracks.map (fun t => t.id)
        openMixCtxCount := s.openMixCtxCount
        onendedHandler := s.onendedHandler
        service := { sessionOpen := false
                     audioStreamActive :=
                       if s.service.sessionOpen then false else s.service.audioStreamActive
                     sentTexts := s.service.sentTexts }
        notifications := s.notifications ++ [ConnectionState.DISCONNECTED] } :=
  handleStopMeetingWith_eq s.stream s

theorem handleStartMeeting_success (env : StartEnv) (s : AppState)
    (mic disp : MediaStream)
    (hm : env.micResult = Except.ok mic)
    (hma : mic.getAudioTracks.length ≠ 0)
    (hd : env.displayResult = Except.ok disp)
    (hda : disp.getAudioTracks.length ≠ 0)
    (hr : (if env.ctxSuspended then env.resumeResult else Except.ok ()) = Except.ok ())
    (hc : env.connectThrows = false) :
    handleStartMeeting env s =
      { connectionState := ConnectionState.CONNECTING
        stream := some { tracks := env.mixedTracks }
        transcripts := s.transcripts
        currentSuggestion := s.currentSuggestion
        isGenerating := s.isGenerating
        errorMsg := none
        activeTracks := mic.tracks ++ disp.tracks
        stopHistory := s.stopHistory ++ s.activeTracks.map (fun t => t.id)
        openMixCtxCount := s.openMixCtxCount + 1
        onendedHandler :=
          if disp.getVideoTracks.isEmpty then s.onendedHandler else some s.stream
        service := { sessionOpen := true
                     audioStreamActive := s.service.audioStreamActive
                     sentTexts := s.service.sentTexts }
        notifications := s.notifications ++ [ConnectionState.CONNECTING] } := by
  simp only [handleStartMeeting, startBody, cleanupTracks, stopTracks,
    hm, hd, hr, hc, if_neg hma, if_neg hda,
    GeminiLiveService.connect, onStateChange, MediaStream.getTracks]
  simp

theorem stop_stops (s : AppState) (t : MediaStreamTrack)
    (h : t ∈ s.activeTracks ∨ ∃ ms, s.stream = some ms ∧ t ∈ ms.tracks) :
    t.id ∈ (handleStopMeeting s).stopHistory := by
  rw [handleStopMeeting_eq]
  rcases h with h | ⟨ms, hms, h⟩
  · exact List.mem_append_right _ (List.mem_map_of_mem _ h)
  · refine List.mem_append_left _ (List.mem_append_right _ ?_)
    rw [hms]
    exact List.mem_map_of_mem _ h

theorem serverOpen_onendedHandler (u : AppState) :
    (serverOpen u).onendedHandler = u.onendedHandler :=
  rfl

theorem serverOpen_activeTracks (u : AppState) :
    (serverOpen u).activeTracks = u.activeTracks :=
  rfl

theorem serverOpen_stream (u : AppState) :
    (serverOpen u).stream = u.stream :=
  rfl

theorem serverOpen_stopHistory (u : AppState) :
    (serverOpen u).stopHistory = u.stopHistory :=
  rfl

/-- C1 counterexample: at a concrete successful start from the initial
state, remote revocation of the tab share (the video track's onended
handler) completes with the state DISCONNECTED and the microphone and
display source tracks stopped, but the mixed stream's own derived track
(id 10) has NOT been stopped — the onended closure captured the pre-start
stream binding (null), so the stop-mixed-stream step is skipped.  This
contradicts the claim that every acquired track, the mixed stream's
derived tracks included, is stopped on every teardown path. -/
theorem remote_revocation_leaks_mixed_counterexample :
    (videoTrackEnded (serverOpen (handleStartMeeting envA initialState))).connectionState
      = ConnectionState.DISCONNECTED ∧
    (0 : Nat) ∈ (videoTrackEnded (serverOpen (handleStartMeeting envA initialState))).stopHistory ∧
    (1 : Nat) ∈ (videoTrackEnded (serverOpen (handleStartMeeting envA initialState))).stopHistory ∧
    (10 : Nat) ∉ (videoTrackEnded (serverOpen (handleStartMeeting envA initialState))).stopHistory := by
  decide

/-- C1 (amended): on explicit user stop every track acquired during start —
microphone source tracks, display source tracks, and the mixed stream's
own derived tracks — is stopped and the state is DISCONNECTED.  On remote
revocation of the tab share while connected the state also becomes
DISCONNECTED and every microphone and display source track is stopped,
but the handler's closure stops only the tracks of the stream binding it
captured at the pre-start render (the stop history is exactly the sources
plus that captured stream), so the mixed stream's freshly derived tracks
are not stopped on that path. -/
theorem teardown_stops_tracks_amended (env : StartEnv) (s : AppState)
    (mic disp : MediaStream)
    (hm : env.micResult = Except.ok mic)
    (hma : mic.getAudioTracks.length ≠ 0)
    (hd : env.displayResult = Except.ok disp)
    (hda : disp.getAudioTracks.length ≠ 0)
    (hr : (if env.ctxSuspended then env.resumeResult else Except.ok ()) = Except.ok ())
    (hc : env.connectThrows = false)
    (hv : disp.getVideoTracks ≠ []) :
    ((handleStopMeeting (serverOpen (handleStartMeeting env s))).connectionState
        = ConnectionState.DISCONNECTED ∧
      ∀ t, t ∈ mic.getTracks ++ disp.getTracks ++ env.mixedTracks →
        t.id ∈ (handleStopMeeting (serverOpen (handleStartMeeting env s))).stopHistory) ∧
    ((videoTrackEnded (serverOpen (handleStartMeeting env s))).connectionState
        = ConnectionState.DISCONNECTED ∧
      (∀ t, t ∈ mic.getTracks ++ disp.getTracks →
        t.id ∈ (videoTrackEnded (serverOpen (handleStartMeeting env s))).stopHistory) ∧
      (videoTrackEnded (serverOpen (handleStartMeeting env s))).stopHistory =
        ((s.stopHistory ++ s.activeTracks.map (fun t => t.id)) ++
          (match s.stream with
           | some ms => ms.tracks.map (fun t => t.id)
           | none => [])) ++ (mic.getTracks ++ disp.getTracks).map (fun t => t.id)) := by
  have hvif : (if disp.getVideoTracks.isEmpty = true then s.onendedHandler
      else some s.stream) = some s.stream := by
    cases hE : disp.getVideoTracks with
    | nil => exact absurd hE hv
    | cons a l => rfl
  have hsucc := handleStartMeeting_success env s mic disp hm hma hd hda hr hc
  have h1 : (serverOpen (handleStartMeeting env s)).onendedHandler = some s.stream := by
    rw [serverOpen_onendedHandler, hsucc]
    exact hvif
  have h2 : (serverOpen (handleStartMeeting env s)).activeTracks
      = mic.tracks ++ disp.tracks := by
    rw [serverOpen_activeTracks, hsucc]
  have h3 : (serverOpen (handleStartMeeting env s)).stream
      = some { tracks := env.mixedTracks } := by
    rw [serverOpen_stream, hsucc]
  have h4 : (serverOpen (handleStartMeeting env s)).stopHistory
      = s.stopHistory ++ s.activeTracks.map (fun t => t.id) := by
    rw [serverOpen_stopHistory, hsucc]
  have hvteq : videoTrackEnded (serverOpen (handleStartMeeting env s)) =
      handleStopMeetingWith s.stream (serverOpen (handleStartMeeting env s)) := by
    unfold videoTrackEnded
    rw [h1]
  refine ⟨⟨by rw [handleStopMeeting_eq], ?_⟩, ?_, ?_, ?_⟩
  · intro t ht
    apply stop_stops
    rcases List.mem_append.mp ht with hS | hM
    · rw [h2]
      exact Or.inl hS
    · exact Or.inr ⟨{ tracks := env.mixedTracks }, h3, hM⟩
  · rw [hvteq, handleStopMeetingWith_eq]
  · intro t ht
    rw [hvteq, handleStopMeetingWith_eq]
    refine List.mem_append_right _ ?_
    rw [h2]
    exact List.mem_map_of_mem _ ht
  · rw [hvteq, handleStopMeetingWith_eq, h2, h4]
    rfl

theorem teardown_stops_tracks_amended_witness :
    (envA.micResult = Except.ok micA ∧ micA.getAudioTracks.length ≠ 0 ∧
     envA.displayResult = Except.ok dispA ∧ dispA.getAudioTracks.length ≠ 0 ∧
     envA.connectThrows = false ∧ dispA.getVideoTracks ≠ []) ∧
    (handleStopMeeting (serverOpen (handleStartMeeting envA initialState))).connectionState
      = ConnectionState.DISCONNECTED ∧
    (10 : Nat) ∈ (handleStopMeeting (serverOpen (handleStartMeeting envA initialState))).stopHistory ∧
    (videoTrackEnded (serverOpen (handleStartMeeting envA initialState))).connectionState
      = ConnectionState.DISCONNECTED ∧
    (0 : Nat) ∈ (videoTrackEnded (serverOpen (handleStartMeeting envA initialState))).stopHistory ∧
    (videoTrackEnded (serverOpen (handleStartMeeting envA initialState))).stopHistory
      = [0, 1, 2] := by
  have h := teardown_stops_tracks_amended envA initialState micA dispA
    rfl (by decide) rfl (by decide) rfl rfl (by decide)
  refine ⟨⟨rfl, by decide, rfl, by decide, rfl, by decide⟩, h.1.1, ?_, h.2.1, ?_, ?_⟩
  · exact h.1.2 { id := 10, kind := TrackKind.audio } (by decide)
  · exact h.2.2.1 { id := 0, kind := TrackKind.audio } (by decide)
  · rw [h.2.2.2]
    decide

/-- C10: GeminiLiveService.disconnect always ends with the DISCONNECTED
state notification and never raises: from every state — whether or not a
session was ever opened, and including ERROR — the state-change callback is
invoked with DISCONNECTED and the resulting connection state is
DISCONNECTED. -/
theorem disconnect_always_notifies_disconnected (s : AppState) :
    (GeminiLiveService.disconnect s).connectionState = ConnectionState.DISCONNECTED ∧
    (GeminiLiveService.disconnect s).notifications
      = s.notifications ++ [ConnectionState.DISCONNECTED] := by
  by_cases h : s.service.sessionOpen <;>
    simp [GeminiLiveService.disconnect, GeminiLiveService.stopAudioStream,
      onStateChange, h]

/-- C7: a request-suggestion command issued while the connection state is
DISCONNECTED has no observable effect at all (the whole state, including
the transcript log, the suggestion slot and the sent-message list, is
unchanged); likewise the service-level requestSuggestion sends nothing when
no session is open. -/
theorem request_suggestion_disconnected_noop (s : AppState) :
    (s.connectionState = ConnectionState.DISCONNECTED → handleGenerateResponse s = s) ∧
    (s.service.sessionOpen = false → GeminiLiveService.requestSuggestion s = s) := by
  constructor
  · intro h
    simp [handleGenerateResponse, h]
  · intro h
    simp [GeminiLiveService.requestSuggestion, h]

theorem request_suggestion_disconnected_noop_witness :
    initialState.connectionState = ConnectionState.DISCONNECTED ∧
    handleGenerateResponse initialState = initialState ∧
    initialState.service.sessionOpen = false ∧
    GeminiLiveService.requestSuggestion initialState = initialState :=
  ⟨rfl, (request_suggestion_disconnected_noop initialState).1 rfl, rfl,
    (request_suggestion_disconnected_noop initialState).2 rfl⟩

/-- C6: stop is idempotent — a second handleStopMeeting changes nothing
except re-notifying DISCONNECTED: the state remains DISCONNECTED, the stop
history is unchanged (the release logic does not act a second time on
already-released tracks), and from any state (including mid-connect, before
the session has opened) a stop releases every source track acquired so far
and every track of the stored mixed stream. -/
theorem stop_idempotent (s : AppState) :
    handleStopMeeting (handleStopMeeting s) =
      { handleStopMeeting s with
        notifications := (handleStopMeeting s).notifications
          ++ [ConnectionState.DISCONNECTED] } ∧
    (handleStopMeeting (handleStopMeeting s)).stopHistory
      = (handleStopMeeting s).stopHistory ∧
    (handleStopMeeting (handleStopMeeting s)).connectionState
      = ConnectionState.DISCONNECTED ∧
    (∀ t ∈ s.activeTracks, t.id ∈ (handleStopMeeting s).stopHistory) ∧
    (∀ ms, s.stream = some ms →
      ∀ t ∈ ms.tracks, t.id ∈ (handleStopMeeting s).stopHistory) := by
  refine ⟨?_, ?_, by simp [handleStopMeeting_eq], ?_, ?_⟩
  · rw [handleStopMeeting_eq (handleStopMeeting s)]
    simp [handleStopMeeting_eq]
  · rw [handleStopMeeting_eq (handleStopMeeting s)]
    simp [handleStopMeeting_eq]
  · intro t ht
    exact stop_stops s t (Or.inl ht)
  · intro ms hms t ht
    exact stop_stops s t (Or.inr ⟨ms, hms, ht⟩)

theorem stop_idempotent_witness :
    handleStopMeeting (handleStopMeeting stateMid) =
      { handleStopMeeting stateMid with
        notifications := (handleStopMeeting stateMid).notifications
          ++ [ConnectionState.DISCONNECTED] } ∧
    (handleStopMeeting (handleStopMeeting stateMid)).stopHistory
      = (handleStopMeeting stateMid).stopHistory ∧
    (0 : Nat) ∈ (handleStopMeeting stateMid).stopHistory ∧
    (10 : Nat) ∈ (handleStopMeeting stateMid).stopHistory := by
  have h := stop_idempotent stateMid
  refine ⟨h.1, h.2.1, ?_, ?_⟩
  · exact h.2.2.2.1 { id := 0, kind := TrackKind.audio } (by decide)
  · exact h.2.2.2.2 { tracks := [{ id := 10, kind := TrackKind.audio }] } rfl
      { id := 10, kind := TrackKind.audio } (by decide)

theorem errorMessageFor_ne (e : JsError) : errorMessageFor e ≠ "" := by
  unfold errorMessageFor
  split
  · decide
  · split
    · decide
    · split
      · decide
      · assumption

theorem startBody_acquired (env : StartEnv) (s0 : AppState) :
    ∀ t ∈ tracksAcquired env,
      t ∈ (startBody env s0).1.activeTracks ∨
      t.id ∈ (startBody env s0).1.stopHistory := by
  intro t ht
  cases hm : env.micResult with
  | error e =>
    simp [tracksAcquired, hm] at ht
  | ok mic =>
    by_cases hma : mic.getAudioTracks.length = 0
    · simp [tracksAcquired, hm, hma] at ht
    · simp only [tracksAcquired, hm] at ht
      simp only [startBody, hm]
      rw [if_neg hma] at ht
      simp only [if_neg hma]
      cases hd : env.displayResult with
      | error e =>
        simp only [hd] at ht
        simp only [hd]
        simp only [List.append_nil] at ht
        exact Or.inl (List.mem_append_right _ ht)
      | ok disp =>
        simp only [hd] at ht
        simp only [hd]
        by_cases hda : disp.getAudioTracks.length = 0
        · simp only [if_pos hda, cleanupTracks, stopTracks]
          refine Or.inr ?_
          rcases List.mem_append.mp ht with hmic | hdisp
          · exact List.mem_append_right _
              (List.mem_map_of_mem _ (List.mem_append_right _ hmic))
          · exact List.mem_append_left _
              (List.mem_append_right _ (List.mem_map_of_mem _ hdisp))
        · simp only [if_neg hda]
          cases hr : (if env.ctxSuspended then env.resumeResult else Except.ok ()) with
          | error e =>
            simp only [hr]
            refine Or.inl ?_
            rcases List.mem_append.mp ht with h | h
            · exact List.mem_append_left _ (List.mem_append_right _ h)
            · exact List.mem_append_right _ h
          | ok u =>
            simp only [hr]
            refine Or.inl ?_
            simp only [GeminiLiveService.connect, onStateChange]
            split <;>
              (rcases List.mem_append.mp ht with h | h
               · exact List.mem_append_left _ (List.mem_append_right _ h)
               · exact List.mem_append_right _ h)

theorem startThrowFailure_throws (env : StartEnv) (s0 : AppState)
    (h : startThrowFailure env) :
    ((startBody env s0).2).isSome := by
  rcases h with ⟨e, hm⟩ | ⟨mic, hm, hma⟩ | ⟨mic, e, hm, hma, hd⟩ |
    ⟨mic, disp, hm, hma, hd, hda⟩ | ⟨mic, disp, e, hm, hma, hd, hda, hr⟩
  · simp [startBody, hm]
  · simp [startBody, hm, List.length_eq_zero.mp hma]
  · have hma' : mic.getAudioTracks ≠ [] := fun hh => hma (by simp [hh])
    simp [startBody, hm, hma', hd]
  · have hma' : mic.getAudioTracks ≠ [] := fun hh => hma (by simp [hh])
    simp [startBody, hm, hma', hd, List.length_eq_zero.mp hda]
  · have hma' : mic.getAudioTracks ≠ [] := fun hh => hma (by simp [hh])
    have hda' : disp.getAudioTracks ≠ [] := fun hh => hda (by simp [hh])
    simp [startBody, hm, hma', hd, hda', hr]

/-- C2 (amended): for every start-attempt failure that raises an exception
reaching the orchestration catch block — microphone acquisition, missing
microphone audio, tab-share acquisition, missing tab audio, or
mixing-context resume — the system enters the ERROR state with a non-empty
human-readable cause string, the active track set is emptied, and every
track handed out by the capture calls during the attempt is stopped.  The
mixing AudioContext, once created, is however never closed, and a
synchronous session-connect failure reaches ERROR through the service
callback without any of this cleanup (see the counterexample). -/
theorem start_throw_failure_cleanup (env : StartEnv) (s : AppState)
    (h : startThrowFailure env) :
    (handleStartMeeting env s).connectionState = ConnectionState.ERROR ∧
    (∃ m, (handleStartMeeting env s).errorMsg = some m ∧ m ≠ "") ∧
    (handleStartMeeting env s).activeTracks = [] ∧
    ∀ t ∈ tracksAcquired env, t.id ∈ (handleStartMeeting env s).stopHistory := by
  have hs := startThrowFailure_throws env (cleanupTracks { s with errorMsg := none }) h
  obtain ⟨e, he⟩ := Option.isSome_iff_exists.mp hs
  have hb : startBody env (cleanupTracks { s with errorMsg := none }) =
      ((startBody env (cleanupTracks { s with errorMsg := none })).1, some e) := by
    exact Prod.ext rfl he
  set sC := (startBody env (cleanupTracks { s with errorMsg := none })).1 with hsC
  have hmain : handleStartMeeting env s =
      { cleanupTracks sC with
        errorMsg := some (errorMessageFor e)
        connectionState := ConnectionState.ERROR } := by
    simp only [handleStartMeeting, hb]
  rw [hmain]
  refine ⟨rfl, ⟨errorMessageFor e, rfl, errorMessageFor_ne e⟩, rfl, ?_⟩
  intro t ht
  have hacq := startBody_acquired env (cleanupTracks { s with errorMsg := none }) t ht
  rw [hb] at hacq
  simp only [cleanupTracks, stopTracks]
  rcases hacq with hA | hH
  · exact List.mem_append_right _ (List.mem_map_of_mem _ hA)
  · exact List.mem_append_left _ hH

theorem start_throw_failure_cleanup_witness :
    startThrowFailure envResumeFail ∧
    (handleStartMeeting envResumeFail initialState).connectionState
      = ConnectionState.ERROR ∧
    (handleStartMeeting envResumeFail initialState).activeTracks = [] ∧
    (0 : Nat) ∈ (handleStartMeeting envResumeFail initialState).stopHistory := by
  have hfail : startThrowFailure envResumeFail := by
    refine Or.inr (Or.inr (Or.inr (Or.inr
      ⟨micA, dispA, { name := "InvalidStateError", message := "resume failed" },
        rfl, by decide, rfl, by decide, rfl⟩)))
  have h := start_throw_failure_cleanup envResumeFail initialState hfail
  exact ⟨hfail, h.1, h.2.2.1,
    h.2.2.2 { id := 0, kind := TrackKind.audio } (by decide)⟩

/-- C2 counterexample: at a concrete resume failure the system enters ERROR
but the mixing AudioContext created for the attempt remains open, and at a
concrete synchronous connect failure the system is in ERROR with no error
message, live (unstopped) source tracks and the mixing context still open —
both contradict the claim that on every failure no acquired track and no
mixing audio context remains open. -/
theorem error_state_resource_leak_counterexample :
    ((handleStartMeeting envResumeFail initialState).connectionState
        = ConnectionState.ERROR ∧
     (handleStartMeeting envResumeFail initialState).errorMsg = some "resume failed" ∧
     (handleStartMeeting envResumeFail initialState).openMixCtxCount = 1) ∧
    ((handleStartMeeting envConnectThrow initialState).connectionState
        = ConnectionState.ERROR ∧
     (handleStartMeeting envConnectThrow initialState).errorMsg = none ∧
     (handleStartMeeting envConnectThrow initialState).activeTracks ≠ [] ∧
     (handleStartMeeting envConnectThrow initialState).openMixCtxCount = 1) := by
  decide

/-- C3: if the tab-share capture returns a stream with zero audio tracks,
then already at the moment the NoTabAudio error is raised inside the try
block every acquired display track (the video track included) and every
previously acquired microphone track is stopped, and after the start
attempt completes the connection state is ERROR — not CONNECTED — with the
tab-audio error message, and all those tracks are stopped. -/
theorem no_tab_audio_stops_and_errors (env : StartEnv) (s : AppState)
    (mic disp : MediaStream)
    (hm : env.micResult = Except.ok mic)
    (hma : mic.getAudioTracks.length ≠ 0)
    (hd : env.displayResult = Except.ok disp)
    (hda : disp.getAudioTracks.length = 0) :
    (∀ t ∈ disp.getTracks ++ mic.getTracks,
      t.id ∈ (startBody env (cleanupTracks { s with errorMsg := none })).1.stopHistory) ∧
    (startBody env (cleanupTracks { s with errorMsg := none })).2 =
      some { name := "Error"
             message := "Tab audio not detected. Please ensure you check the \x27Share tab audio\x27 box in the sharing dialog." } ∧
    (handleStartMeeting env s).connectionState = ConnectionState.ERROR ∧
    (handleStartMeeting env s).connectionState ≠ ConnectionState.CONNECTED ∧
    (handleStartMeeting env s).errorMsg =
      some "Tab audio not detected. Please ensure you check the \x27Share tab audio\x27 box in the sharing dialog." ∧
    ∀ t ∈ disp.getTracks ++ mic.getTracks,
      t.id ∈ (handleStartMeeting env s).stopHistory := by
  have hpre : ∀ t ∈ disp.getTracks ++ mic.getTracks,
      t.id ∈ (startBody env (cleanupTracks { s with errorMsg := none })).1.stopHistory := by
    intro t ht
    simp only [startBody, hm, if_neg hma, hd, if_pos hda, cleanupTracks, stopTracks,
      List.nil_append]
    rcases List.mem_append.mp ht with hD | hM
    · exact List.mem_append_left _
        (List.mem_append_right _ (List.mem_map_of_mem _ hD))
    · exact List.mem_append_right _ (List.mem_map_of_mem _ hM)
  have hsnd : (startBody env (cleanupTracks { s with errorMsg := none })).2 =
      some { name := "Error"
             message := "Tab audio not detected. Please ensure you check the \x27Share tab audio\x27 box in the sharing dialog." } := by
    simp only [startBody, hm, if_neg hma, hd, if_pos hda]
  have hb : startBody env (cleanupTracks { s with errorMsg := none }) =
      ((startBody env (cleanupTracks { s with errorMsg := none })).1,
        some { name := "Error"
               message := "Tab audio not detected. Please ensure you check the \x27Share tab audio\x27 box in the sharing dialog." }) :=
    Prod.ext rfl hsnd
  set sC := (startBody env (cleanupTracks { s with errorMsg := none })).1 with hsC
  have hmain : handleStartMeeting env s =
      { cleanupTracks sC with
        errorMsg := some (errorMessageFor
          { name := "Error"
            message := "Tab audio not detected. Please ensure you check the \x27Share tab audio\x27 box in the sharing dialog." })
        connectionState := ConnectionState.ERROR } := by
    simp only [handleStartMeeting, hb]
  refine ⟨hpre, hsnd, by rw [hmain], ?_, ?_, ?_⟩
  · rw [hmain]
    intro hcon
    exact ConnectionState.noConfusion hcon
  · rw [hmain]
    exact congrArg some (by decide)
  · intro t ht
    rw [hmain]
    exact List.mem_append_left _ (hpre t ht)

theorem no_tab_audio_stops_and_errors_witness :
    envNoTab.micResult = Except.ok micA ∧
    micA.getAudioTracks.length ≠ 0 ∧
    (handleStartMeeting envNoTab initialState).connectionState
      = ConnectionState.ERROR ∧
    (handleStartMeeting envNoTab initialState).connectionState
      ≠ ConnectionState.CONNECTED ∧
    (2 : Nat) ∈ (handleStartMeeting envNoTab initialState).stopHistory ∧
    (0 : Nat) ∈ (handleStartMeeting envNoTab initialState).stopHistory := by
  have h := no_tab_audio_stops_and_errors envNoTab initialState micA
    { tracks := [{ id := 2, kind := TrackKind.video }] } rfl (by decide) rfl (by decide)
  refine ⟨rfl, by decide, h.2.2.1, h.2.2.2.1, ?_, ?_⟩
  · exact h.2.2.2.2.2 { id := 2, kind := TrackKind.video } (by decide)
  · exact h.2.2.2.2.2 { id := 0, kind := TrackKind.audio } (by decide)

/-- C8 counterexample: after a concrete successful start the tab-share
video track IS in the active track set managed for the session's lifetime,
contradicting the claim that it is discarded immediately and not
retained. -/
theorem video_track_retained_counterexample :
    ({ id := 2, kind := TrackKind.video } : MediaStreamTrack) ∈
      (handleStartMeeting envA initialState).activeTracks := by
  decide

/-- C8 (amended): after tab-share validation the video track is not
discarded from the managed set: it is pushed into the active track set and
retained there for the session's lifetime, which guarantees it is stopped
at teardown together with the other source tracks (it is only excluded
from the mixing graph). -/
theorem video_track_retained_amended (env : StartEnv) (s : AppState)
    (mic disp : MediaStream)
    (hm : env.micResult = Except.ok mic)
    (hma : mic.getAudioTracks.length ≠ 0)
    (hd : env.displayResult = Except.ok disp)
    (hda : disp.getAudioTracks.length ≠ 0)
    (hr : (if env.ctxSuspended then env.resumeResult else Except.ok ()) = Except.ok ())
    (hc : env.connectThrows = false) :
    ∀ t ∈ disp.getVideoTracks,
      t ∈ (handleStartMeeting env s).activeTracks ∧
      t.id ∈ (handleStopMeeting (handleStartMeeting env s)).stopHistory := by
  rw [handleStartMeeting_success env s mic disp hm hma hd hda hr hc]
  intro t ht
  have htd : t ∈ disp.tracks := List.mem_of_mem_filter ht
  constructor
  · exact List.mem_append_right _ htd
  · apply stop_stops
    exact Or.inl (List.mem_append_right _ htd)

theorem video_track_retained_amended_witness :
    dispA.getVideoTracks ≠ [] ∧
    ({ id := 2, kind := TrackKind.video } : MediaStreamTrack) ∈
      (handleStartMeeting envA initialState).activeTracks ∧
    (2 : Nat) ∈ (handleStopMeeting (handleStartMeeting envA initialState)).stopHistory := by
  have h := video_track_retained_amended envA initialState micA dispA
    rfl (by decide) rfl (by decide) rfl rfl
    { id := 2, kind := TrackKind.video } (by decide)
  exact ⟨by decide, h.1, h.2⟩

theorem handleMessage_eq (e : InboundEvent) (s : AppState) :
    GeminiLiveService.handleMessage e.now e.rand1 e.rand2 s e.msg =
      { s with
        transcripts := s.transcripts ++ eventItems e
        currentSuggestion :=
          match outputItemOf e with
          | some i => some i
          | none => s.currentSuggestion
        isGenerating :=
          match outputItemOf e with
          | some _ => false
          | none => s.isGenerating } := by
  rcases e with ⟨m, now, r1, r2⟩
  rcases m with ⟨_ | ⟨it, ot, tc⟩⟩
  · simp [GeminiLiveService.handleMessage, eventItems, inputItemOf, outputItemOf]
  · rcases it with _ | ⟨_ | x1⟩ <;> rcases ot with _ | ⟨_ | x2⟩ <;>
      first
      | (by_cases hx1 : x1 = "" <;> by_cases hx2 : x2 = "" <;>
          simp [GeminiLiveService.handleMessage, eventItems, inputItemOf,
            outputItemOf, onTranscriptionUpdate, hx1, hx2, List.append_assoc])
      | (by_cases hx1 : x1 = "" <;>
          simp [GeminiLiveService.handleMessage, eventItems, inputItemOf,
            outputItemOf, onTranscriptionUpdate, hx1, List.append_assoc])
      | (by_cases hx2 : x2 = "" <;>
          simp [GeminiLiveService.handleMessage, eventItems, inputItemOf,
            outputItemOf, onTranscriptionUpdate, hx2, List.append_assoc])
      | simp [GeminiLiveService.handleMessage, eventItems, inputItemOf,
          outputItemOf, onTranscriptionUpdate, List.append_assoc]

theorem processEvents_cons (s : AppState) (e : InboundEvent) (rest : List InboundEvent) :
    processEvents s (e :: rest) =
      processEvents (GeminiLiveService.handleMessage e.now e.rand1 e.rand2 s e.msg) rest :=
  rfl

theorem processEvents_transcripts (evts : List InboundEvent) (s : AppState) :
    (processEvents s evts).transcripts = s.transcripts ++ producedItems evts := by
  induction evts generalizing s with
  | nil => simp [processEvents, producedItems]
  | cons e rest ih =>
    rw [processEvents_cons, ih, handleMessage_eq]
    simp [producedItems, List.append_assoc]

theorem processEvents_suggestion (evts : List InboundEvent) (s : AppState) :
    (processEvents s evts).currentSuggestion =
      match (outputsOf evts).getLast? with
      | some i => some i
      | none => s.currentSuggestion := by
  induction evts generalizing s with
  | nil => simp [processEvents, outputsOf]
  | cons e rest ih =>
    rw [processEvents_cons, ih, handleMessage_eq]
    cases ho : outputItemOf e with
    | none => simp [outputsOf, ho]
    | some i =>
      simp only [outputsOf, ho, Option.toList_some, List.singleton_append]
      cases hrest : (outputsOf rest).getLast? with
      | some j =>
        cases hcase : outputsOf rest with
        | nil =>
          rw [hcase] at hrest
          cases hrest
        | cons a l =>
          rw [hcase] at hrest
          simp [List.getLast?_cons_cons, hrest]
      | none =>
        have hnil : outputsOf rest = [] := List.getLast?_eq_none_iff.mp hrest
        simp [hnil]

theorem processEvents_isGenerating (evts : List InboundEvent) (s : AppState) :
    (processEvents s evts).isGenerating =
      if outputsOf evts = [] then s.isGenerating else false := by
  induction evts generalizing s with
  | nil => simp [processEvents, outputsOf]
  | cons e rest ih =>
    rw [processEvents_cons, ih, handleMessage_eq]
    cases ho : outputItemOf e with
    | none => simp [outputsOf, ho]
    | some i => simp [outputsOf, ho]

theorem outputsOf_subset (evts : List InboundEvent) :
    ∀ i ∈ outputsOf evts, i ∈ producedItems evts := by
  induction evts with
  | nil => simp [outputsOf]
  | cons e rest ih =>
    intro i hi
    rcases List.mem_append.mp hi with h | h
    · exact List.mem_append_left _ (List.mem_append_right _ h)
    · exact List.mem_append_right _ (ih i h)

/-- C4: the transcript log is append-only and order-preserving: dispatching
any sequence of inbound transcription events appends exactly the items
they produce — each event with non-empty text, input before output, in
dispatch order — after the existing log, whose entries are never mutated
or removed; and explicit dismissal of the current suggestion leaves the
log unchanged. -/
theorem transcript_append_only_ordered (s : AppState) (evts : List InboundEvent) :
    (processEvents s evts).transcripts = s.transcripts ++ producedItems evts ∧
    (dismissSuggestion s).transcripts = s.transcripts ∧
    (dismissSuggestion (processEvents s evts)).transcripts
      = s.transcripts ++ producedItems evts :=
  ⟨processEvents_transcripts evts s, rfl, processEvents_transcripts evts s⟩

/-- C5: after any sequence of events, the current-suggestion slot holds
exactly the most recent output-side item (keeping its previous value, in
particular empty, when no output item arrived), the log still contains
every output-side item produced, and the is-generating indicator becomes
false at the moment an output-side item arrives. -/
theorem suggestion_slot_latest_output (s : AppState) (evts : List InboundEvent) :
    ((processEvents s evts).currentSuggestion =
      match (outputsOf evts).getLast? with
      | some i => some i
      | none => s.currentSuggestion) ∧
    ((processEvents s evts).isGenerating =
      if outputsOf evts = [] then s.isGenerating else false) ∧
    (∀ i ∈ outputsOf evts, i ∈ (processEvents s evts).transcripts) ∧
    (∀ e : InboundEvent, ∀ i, outputItemOf e = some i →
      (GeminiLiveService.handleMessage e.now e.rand1 e.rand2 s e.msg).isGenerating
        = false) := by
  refine ⟨processEvents_suggestion evts s, processEvents_isGenerating evts s, ?_, ?_⟩
  · intro i hi
    rw [processEvents_transcripts]
    exact List.mem_append_right _ (outputsOf_subset evts i hi)
  · intro e i ho
    rw [handleMessage_eq]
    simp [ho]

theorem suggestion_slot_latest_output_witness :
    (processEvents initialState sampleEvents).currentSuggestion =
      some { id := "4b", timestamp := 4, text := "I\x27m good",
             isUser := false, isComplete := true } ∧
    (processEvents initialState sampleEvents).isGenerating = false ∧
    ({ id := "2b", timestamp := 2, text := "hi there",
       isUser := false, isComplete := true } : TranscriptionItem)
      ∈ (processEvents initialState sampleEvents).transcripts := by
  have h := suggestion_slot_latest_output initialState sampleEvents
  refine ⟨?_, ?_, ?_⟩
  · rw [h.1]
    decide
  · rw [h.2.1]
    decide
  · exact h.2.2.1 _ (by decide)

/-- C9: for every inbound message whose input-transcription or
output-transcription text field is empty or absent, no TranscriptionItem
is produced for that field, and a message with both fields blank leaves
the whole state — the transcript log and the current-suggestion slot
included — unchanged. -/
theorem blank_transcription_no_item (e : InboundEvent) (s : AppState) :
    (inputBlank e.msg = true → inputItemOf e = none) ∧
    (outputBlank e.msg = true → outputItemOf e = none) ∧
    (inputBlank e.msg = true → outputBlank e.msg = true →
      GeminiLiveService.handleMessage e.now e.rand1 e.rand2 s e.msg = s) := by
  have hin : inputBlank e.msg = true → inputItemOf e = none := by
    intro h
    rcases e with ⟨⟨_ | ⟨it, ot, tc⟩⟩, now, r1, r2⟩
    · rfl
    · rcases it with _ | ⟨_ | x1⟩
      · rfl
      · rfl
      · simp [inputBlank] at h
        simp [inputItemOf, h]
  have hout : outputBlank e.msg = true → outputItemOf e = none := by
    intro h
    rcases e with ⟨⟨_ | ⟨it, ot, tc⟩⟩, now, r1, r2⟩
    · rfl
    · rcases ot with _ | ⟨_ | x2⟩
      · rfl
      · rfl
      · simp [outputBlank] at h
        simp [outputItemOf, h]
  refine ⟨hin, hout, fun h1 h2 => ?_⟩
  rw [handleMessage_eq]
  simp [eventItems, hin h1, hout h2]

theorem blank_transcription_no_item_witness :
    inputBlank evBlank.msg = true ∧
    outputBlank evBlank.msg = true ∧
    inputItemOf evBlank = none ∧
    GeminiLiveService.handleMessage evBlank.now evBlank.rand1 evBlank.rand2
      initialState evBlank.msg = initialState := by
  have h := blank_transcription_no_item evBlank initialState
  exact ⟨by decide, by decide, h.1 (by decide), h.2.2 (by decide) (by decide)⟩
